import Mathlib

set_option maxRecDepth 10000

/-!
Verification development for the yolo-veggie-detector HTTP service.

The Python sources (`yolo_detector.py`, `main.py`) are shallowly embedded:
the external effects (filesystem, wall clock, the third-party YOLO library,
the OpenCV decoder) are supplied as explicit environment records, and each
Python function becomes a pure Lean function over a state/environment pair.
Numeric values flowing through the detection pipeline are modelled as
rationals; Python's `round` builtin (banker's rounding) is modelled by
`roundHalfEven`.
-/

namespace YoloVeggie

/-- Python's `round` to the nearest integer: round half to even
(banker's rounding), as applied by `round(...)` in `yolo_detector.py`. -/
def roundHalfEven (x : ℚ) : ℤ :=
  if x - ⌊x⌋ < 1 / 2 then ⌊x⌋
  else if 1 / 2 < x - ⌊x⌋ then ⌊x⌋ + 1
  else if ⌊x⌋ % 2 = 0 then ⌊x⌋ else ⌊x⌋ + 1

/-- Python's `round(x, 1)`: round to one decimal place, half to even. -/
def round1 (x : ℚ) : ℚ := (roundHalfEven (x * 10) : ℚ) / 10

/-- One raw detection emitted by the underlying YOLO model:
`box.conf[0]`, `box.cls[0]`, and the four `box.xyxy[0]` corners. -/
structure RawBox where
  conf : ℚ
  cls : ℤ
  x1 : ℚ
  y1 : ℚ
  x2 : ℚ
  y2 : ℚ
deriving DecidableEq, Repr

/-- One element of the list returned by `self.model(img, ...)`;
`boxes` is `None` or a list of detections (`result.boxes`). -/
structure YoloResult where
  boxes : Option (List RawBox)
deriving DecidableEq, Repr

/-- A decoded image as seen by the service: `img.shape[1]` is the width,
`img.shape[0]` the height. -/
structure Img where
  width : ℕ
  height : ℕ
deriving DecidableEq, Repr

/-- The `bounding_box` dictionary built for each detection. -/
structure BoundingBox where
  x1 : ℤ
  y1 : ℤ
  x2 : ℤ
  y2 : ℤ
  width : ℤ
  height : ℤ
deriving DecidableEq, Repr

/-- The `detection_info` dictionary built for each detection. -/
structure Detection where
  object : String
  confidence : ℚ
  bounding_box : BoundingBox
deriving DecidableEq, Repr

/-- The success dictionary returned by `YOLODetector.detect_objects`. -/
structure DetectionResults where
  total_objects : ℕ
  objects_detected : List Detection
  image_width : ℕ
  image_height : ℕ
deriving DecidableEq, Repr

/-- The mutable fields of the `YOLODetector` instance.  The loaded model
object (`self.model`) is represented by its class-name mapping, the only
part of it the embedded code reads. -/
structure DetectorState where
  model : Option (List (ℤ × String))
  model_loaded : Bool
  last_load_attempt : Option ℕ
  load_error : Option String
deriving DecidableEq, Repr

/-- The state built by `YOLODetector.__init__`. -/
def initialState : DetectorState :=
  { model := none, model_loaded := false, last_load_attempt := none, load_error := none }

/-- Environment of one `load_model` call: the external facts it consults.
`parseResult` is the outcome of `YOLO(model_path)` (exception message on
failure), `names` the class mapping of the parsed model, `smokeResult` the
outcome of the dummy inference `self.model(dummy_image)`, and `now` the
wall-clock second of `datetime.now()`. -/
structure LoadEnv where
  path : String
  cwd : String
  pathExists : Bool
  parseResult : Except String Unit
  names : List (ℤ × String)
  smokeResult : Except String Unit
  now : ℕ
deriving Repr

/-- Result of one `load_model` call: the returned boolean, the updated
detector state, and how many smoke-test inferences were executed. -/
structure LoadOutcome where
  ret : Bool
  state : DetectorState
  smokeRuns : ℕ
deriving DecidableEq, Repr

/-- `YOLODetector.load_model`.  The attempt timestamp is recorded first;
a missing file or a parse exception fails before any smoke test; a parse
success installs the model and runs exactly one smoke test; only a
successful smoke test sets `model_loaded := true`.  Failure paths record a
message in `load_error` but leave `model_loaded` untouched, exactly as the
Python code does. -/
def load_model (s : DetectorState) (env : LoadEnv) : LoadOutcome :=
  let s1 := { s with last_load_attempt := some env.now }
  if env.pathExists = false then
    { ret := false
      state := { s1 with
        load_error := some ("YOLO model file " ++ env.path ++ " not found in " ++ env.cwd) }
      smokeRuns := 0 }
  else
    match env.parseResult with
    | .error e =>
      { ret := false
        state := { s1 with load_error := some ("Error loading YOLO model: " ++ e) }
        smokeRuns := 0 }
    | .ok _ =>
      let s2 := { s1 with model := some env.names }
      match env.smokeResult with
      | .error e =>
        { ret := false
          state := { s2 with load_error := some ("Error loading YOLO model: " ++ e) }
          smokeRuns := 1 }
      | .ok _ =>
        { ret := true
          state := { s2 with model_loaded := true, load_error := none }
          smokeRuns := 1 }

/-- Environment of one `detect_objects` call: the outcome of
`cv2.imdecode` (`none` models the `img is None` case) and the outcome of
the inference call `self.model(img, conf=0.3, ...)` (exception message on
failure). -/
structure DetectEnv where
  decode : Option Img
  inference : Except String (List YoloResult)
deriving Repr

/-- The per-box body of the detection loop: class-name lookup with the
`class_<id>` fallback, confidence scaled to a percentage and rounded to one
decimal, corners rounded to integers, width and height as the rounded raw
differences. -/
def detectionOfBox (names : List (ℤ × String)) (b : RawBox) : Detection :=
  let class_name :=
    match names.lookup b.cls with
    | some n => n
    | none => "class_" ++ toString b.cls
  { object := class_name
    confidence := round1 (b.conf * 100)
    bounding_box :=
      { x1 := roundHalfEven b.x1
        y1 := roundHalfEven b.y1
        x2 := roundHalfEven b.x2
        y2 := roundHalfEven b.y2
        width := roundHalfEven (b.x2 - b.x1)
        height := roundHalfEven (b.y2 - b.y1) } }

/-- One step of the outer result loop: skip a result whose `boxes` is
`None`, otherwise append one `Detection` and bump `total_objects` for each
box. -/
def processResult (names : List (ℤ × String)) (acc : List Detection × ℕ)
    (r : YoloResult) : List Detection × ℕ :=
  match r.boxes with
  | none => acc
  | some bs => bs.foldl (fun a b => (a.1 ++ [detectionOfBox names b], a.2 + 1)) acc

/-- All raw boxes of a model output, in emission order. -/
def allBoxes : List YoloResult → List RawBox
  | [] => []
  | r :: rs => r.boxes.getD [] ++ allBoxes rs

/-- `YOLODetector.detect_objects`: returns the `(result, error)` pair.
The not-loaded guard precedes everything; decoding failure and inference
exceptions produce `None` results with an error string; otherwise the loop
output is packaged with the image dimensions. -/
def detect_objects (s : DetectorState) (env : DetectEnv) :
    Option DetectionResults × Option String :=
  if s.model_loaded = false then (none, some "YOLO model not loaded")
  else
    match env.decode with
    | none => (none, some "Failed to decode image")
    | some img =>
      match s.model with
      | none => (none, some "Detection error: NoneType object is not callable")
      | some names =>
        match env.inference with
        | .error e => (none, some ("Detection error: " ++ e))
        | .ok results =>
          let p := results.foldl (processResult names) ([], 0)
          (some { total_objects := p.2, objects_detected := p.1
                  image_width := img.width, image_height := img.height }, none)

/-- The structural JPEG check of `main.py`:
`image_data.startswith(b'\xff\xd8') and image_data.endswith(b'\xff\xd9')`.
Bodies are byte lists; 0xFF = 255, 0xD8 = 216, 0xD9 = 217. -/
def jpegBracketed (body : List ℕ) : Bool :=
  [255, 216].isPrefixOf body && [255, 217].isSuffixOf body

/-- Python truthiness of the `error` component (`if error:`):
`None` and the empty string are falsy. -/
def pyTruthyStr : Option String → Bool
  | none => false
  | some s => !(s == "")

/-- The JSON responses `/yolo-detect` can build, each constructor carrying
the data the handler puts in the body. -/
inductive YoloDetectResp where
  | modelNotLoaded (error details : String) (last_attempt : Option ℕ)
  | imageTooSmall (error : String)
  | imageTooLarge (error : String)
  | invalidJpeg (error : String)
  | detectionFailed (error : String)
  | detectionSuccess (size_bytes : ℕ) (results : DetectionResults)
  | unexpectedError (error : String)
deriving DecidableEq, Repr

/-- HTTP status code attached to each `/yolo-detect` response. -/
def yoloStatusCode : YoloDetectResp → ℕ
  | .modelNotLoaded .. => 503
  | .imageTooSmall .. => 400
  | .imageTooLarge .. => 413
  | .invalidJpeg .. => 400
  | .detectionFailed .. => 500
  | .detectionSuccess .. => 200
  | .unexpectedError .. => 500

/-- Environment of one `/yolo-detect` request: the request body and the
environments fed to the (at most one) lazy reload and to the detection
call. -/
structure YoloRequestEnv where
  body : List ℕ
  loadEnv : LoadEnv
  detectEnv : DetectEnv
deriving Repr

/-- The validation-and-detection tail of the `/yolo-detect` handler, run
once a loaded model is available: size checks, JPEG bracket check, then
`detect_objects`, whose error component is tested with Python truthiness. -/
def runDetection (s : DetectorState) (body : List ℕ) (denv : DetectEnv) :
    YoloDetectResp :=
  if body.length < 1000 then
    .imageTooSmall "Image too small - minimum 1KB required"
  else if 10 * 1024 * 1024 < body.length then
    .imageTooLarge "Image too large - maximum 10MB allowed"
  else if !(jpegBracketed body) then
    .invalidJpeg "Invalid JPEG format"
  else
    match detect_objects s denv with
    | (res, err) =>
      if pyTruthyStr err then .detectionFailed (err.getD "")
      else
        match res with
        | some r => .detectionSuccess body.length r
        | none => .unexpectedError "YOLO detection error: NoneType is not subscriptable"

/-- The `/yolo-detect` handler `yolo_detect_objects` of `main.py`.  The
model-loaded check and lazy reload precede reading and validating the
body.  Returns the response, the detector state after the request, and the
number of reload attempts made. -/
def yolo_detect_objects (s : DetectorState) (env : YoloRequestEnv) :
    YoloDetectResp × DetectorState × ℕ :=
  if s.model_loaded then
    (runDetection s env.body env.detectEnv, s, 0)
  else
    let o := load_model s env.loadEnv
    if o.ret then (runDetection o.state env.body env.detectEnv, o.state, 1)
    else
      let details :=
        match o.state.load_error with
        | some e => if e == "" then "Unknown model loading error" else e
        | none => "Unknown model loading error"
      (.modelNotLoaded "YOLO model not loaded" details o.state.last_load_attempt,
        o.state, 1)

/-- The filesystem the upload endpoint writes to: a map from paths to byte
contents; `open(path, 'wb')` overwrites. -/
abbrev Fs := String → Option (List ℕ)

/-- The empty filesystem. -/
def fsEmpty : Fs := fun _ => none

/-- Abstraction of `datetime.now().strftime("%Y%m%d_%H%M%S")`: a
second-resolution timestamp rendered as a string.  Two calls within the
same wall-clock second render identically. -/
def strftimeSeconds (t : ℕ) : String := toString t

/-- Environment of one `/upload-image` request: the wall-clock second of
`datetime.now()` and whether the disk write succeeds. -/
structure UploadEnv where
  now : ℕ
  writeOk : Bool
deriving DecidableEq, Repr

/-- The JSON responses `/upload-image` can build. -/
inductive UploadResp where
  | imageTooSmall (error : String)
  | imageTooLarge (error : String)
  | invalidJpeg (error : String)
  | saveFailed (error : String)
  | uploadSuccess (filename saved_to : String) (size_bytes : ℕ)
deriving DecidableEq, Repr

/-- HTTP status code attached to each `/upload-image` response. -/
def uploadStatusCode : UploadResp → ℕ
  | .imageTooSmall .. => 400
  | .imageTooLarge .. => 413
  | .invalidJpeg .. => 400
  | .saveFailed .. => 500
  | .uploadSuccess .. => 200

/-- The `/upload-image` handler `upload_image_direct` of `main.py`:
size and JPEG checks, then a filename from the second-resolution timestamp
(no disambiguator), then an overwriting write under `received_images`. -/
def upload_image_direct (fs : Fs) (env : UploadEnv) (body : List ℕ) :
    UploadResp × Fs :=
  if body.length < 1000 then
    (.imageTooSmall "Image too small - minimum 1KB required", fs)
  else if 5 * 1024 * 1024 < body.length then
    (.imageTooLarge "Image too large - maximum 5MB allowed", fs)
  else if !(jpegBracketed body) then
    (.invalidJpeg "Invalid JPEG format", fs)
  else
    let filename := "esp32_image_" ++ strftimeSeconds env.now ++ ".jpg"
    let file_path := "received_images/" ++ filename
    if env.writeOk then
      (.uploadSuccess filename file_path body.length,
        fun q => if q = file_path then some body else fs q)
    else
      (.saveFailed "Save error: disk write failed", fs)

/-! ### Concrete sample inputs used to exercise the embedded code -/

/-- A minimal well-formed request body: JPEG-bracketed, exactly 1000
bytes. -/
def sampleBody : List ℕ := 255 :: 216 :: (List.replicate 996 0 ++ [255, 217])

/-- A second well-formed 1000-byte body with different payload bytes. -/
def sampleBody2 : List ℕ := 255 :: 216 :: (List.replicate 996 1 ++ [255, 217])

/-- A load environment in which the model artifact is missing. -/
def missingFileEnv : LoadEnv :=
  { path := "best.pt", cwd := "/srv/app", pathExists := false,
    parseResult := .ok (), names := [], smokeResult := .ok (), now := 0 }

/-- A load environment in which loading fully succeeds. -/
def okLoadEnv : LoadEnv :=
  { path := "best.pt", cwd := "/srv/app", pathExists := true,
    parseResult := .ok (), names := [(0, "tomato")], smokeResult := .ok (),
    now := 1 }

/-- A load environment in which the artifact parses but the smoke-test
inference raises. -/
def smokeFailEnv : LoadEnv :=
  { path := "best.pt", cwd := "/srv/app", pathExists := true,
    parseResult := .ok (), names := [(0, "tomato")],
    smokeResult := .error "CUDA assertion failed", now := 2 }

/-- A detector state after a successful load. -/
def loadedState : DetectorState :=
  { model := some [(0, "tomato")], model_loaded := true,
    last_load_attempt := some 1, load_error := none }

/-- A raw model detection with in-range confidence and ordered corners;
its x-corners 0.6 and 1.4 both round to 1 while their raw difference 0.8
rounds to 1. -/
def oneRawBox : RawBox :=
  { conf := 1 / 2, cls := 0, x1 := 3 / 5, y1 := 0, x2 := 7 / 5, y2 := 10 }

/-- A detection environment: a decodable 640x480 image on which the model
emits one box. -/
def oneBoxEnv : DetectEnv :=
  { decode := some { width := 640, height := 480 },
    inference := .ok [{ boxes := some [oneRawBox] }] }

/-- A detection environment: a decodable image on which the model emits no
detections at all. -/
def zeroBoxEnv : DetectEnv :=
  { decode := some { width := 640, height := 480 },
    inference := .ok [{ boxes := none }, { boxes := some [] }] }

/-- A `/yolo-detect` request with an empty body arriving while the model
artifact is missing. -/
def smallBodyFailEnv : YoloRequestEnv :=
  { body := [], loadEnv := missingFileEnv, detectEnv := zeroBoxEnv }

/-- An upload environment at wall-clock second 7 with a working disk. -/
def uploadEnv7 : UploadEnv := { now := 7, writeOk := true }

/-! ### Arithmetic lemmas about the rounding helpers -/

theorem roundHalfEven_intCast (n : ℤ) : roundHalfEven (n : ℚ) = n := by
  unfold roundHalfEven
  simp

theorem roundHalfEven_mono {x y : ℚ} (h : x ≤ y) :
    roundHalfEven x ≤ roundHalfEven y := by
  have hfl : ⌊x⌋ ≤ ⌊y⌋ := Int.floor_le_floor h
  rcases lt_or_eq_of_le hfl with hlt | heq
  · unfold roundHalfEven
    split_ifs <;> omega
  · have hcast : ((⌊x⌋ : ℤ) : ℚ) = ((⌊y⌋ : ℤ) : ℚ) := by exact_mod_cast heq
    have hfrac : x - ⌊x⌋ ≤ y - ⌊y⌋ := by rw [← hcast]; linarith
    unfold roundHalfEven
    split_ifs <;> first | omega | (exfalso; linarith)

theorem roundHalfEven_nonneg {x : ℚ} (h : 0 ≤ x) : 0 ≤ roundHalfEven x := by
  have := roundHalfEven_mono h
  rwa [show (0 : ℚ) = ((0 : ℤ) : ℚ) by norm_num, roundHalfEven_intCast] at this

theorem roundHalfEven_le_of_le_int {x : ℚ} {m : ℤ} (h : x ≤ (m : ℚ)) :
    roundHalfEven x ≤ m := by
  have := roundHalfEven_mono h
  rwa [roundHalfEven_intCast] at this

theorem round1_mem_Icc {c : ℚ} (h0 : 0 ≤ c) (h1 : c ≤ 1) :
    0 ≤ round1 (c * 100) ∧ round1 (c * 100) ≤ 100 := by
  have hlo : (0 : ℤ) ≤ roundHalfEven (c * 100 * 10) :=
    roundHalfEven_nonneg (by nlinarith)
  have hhi : roundHalfEven (c * 100 * 10) ≤ (1000 : ℤ) :=
    roundHalfEven_le_of_le_int (by push_cast; nlinarith)
  unfold round1
  constructor
  · apply div_nonneg _ (by norm_num)
    exact_mod_cast hlo
  · rw [div_le_iff₀ (by norm_num)]
    have hq : ((roundHalfEven (c * 100 * 10) : ℤ) : ℚ) ≤ ((1000 : ℤ) : ℚ) := by
      exact_mod_cast hhi
    push_cast at hq ⊢
    linarith

/-! ### Lemmas about the detection loop -/

theorem foldl_append_count {α β : Type} (f : α → β) (bs : List α)
    (acc : List β × ℕ) :
    bs.foldl (fun a b => (a.1 ++ [f b], a.2 + 1)) acc =
      (acc.1 ++ bs.map f, acc.2 + bs.length) := by
  induction bs generalizing acc with
  | nil => simp
  | cons b bs ih =>
    rw [List.foldl_cons, ih]
    simp [List.append_assoc]
    omega

theorem processResult_foldl (names : List (ℤ × String))
    (results : List YoloResult) (acc : List Detection × ℕ) :
    results.foldl (processResult names) acc =
      (acc.1 ++ (allBoxes results).map (detectionOfBox names),
        acc.2 + (allBoxes results).length) := by
  induction results generalizing acc with
  | nil => simp [allBoxes]
  | cons r rs ih =>
    rw [List.foldl_cons, ih]
    cases hb : r.boxes with
    | none => simp [processResult, hb, allBoxes]
    | some bs =>
      simp [processResult, hb, foldl_append_count, allBoxes, List.append_assoc]
      omega

theorem detect_objects_ok (s : DetectorState) (env : DetectEnv)
    (names : List (ℤ × String)) (img : Img) (results : List YoloResult)
    (hm : s.model_loaded = true) (hmod : s.model = some names)
    (hd : env.decode = some img) (hi : env.inference = .ok results) :
    detect_objects s env =
      (some { total_objects := (allBoxes results).length
              objects_detected := (allBoxes results).map (detectionOfBox names)
              image_width := img.width
              image_height := img.height }, none) := by
  unfold detect_objects
  rw [hm, hd, hmod, hi]
  simp [processResult_foldl]

/-! ### String helper -/

theorem empty_of_length_zero {s : String} (h : s.length = 0) : s = "" := by
  cases s with
  | mk data =>
    cases data with
    | nil => rfl
    | cons c cs => simp [String.length] at h

theorem append_ne_empty_left {a : String} (b : String) (h : a ≠ "") :
    a ++ b ≠ "" := by
  intro hc
  apply h
  have hl : (a ++ b).length = 0 := by rw [hc]; rfl
  rw [String.length_append] at hl
  exact empty_of_length_zero (by omega)

/-! ### Structural lemmas about `load_model` -/

theorem load_model_last_attempt (s : DetectorState) (env : LoadEnv) :
    (load_model s env).state.last_load_attempt = some env.now := by
  unfold load_model
  cases hp : env.pathExists <;>
    cases hr : env.parseResult <;>
      cases hs : env.smokeResult <;> simp [hp, hr, hs]

theorem load_model_ret_false (s : DetectorState) (env : LoadEnv) :
    (load_model s env).ret = false →
    (load_model s env).state.model_loaded = s.model_loaded ∧
      ∃ m, (load_model s env).state.load_error = some m ∧ m ≠ "" := by
  unfold load_model
  cases hp : env.pathExists <;>
    cases hr : env.parseResult <;>
      cases hs : env.smokeResult <;>
        simp <;>
          first
            | exact append_ne_empty_left _
                (append_ne_empty_left _ (append_ne_empty_left _ (by decide)))
            | exact append_ne_empty_left _ (by decide)

theorem load_model_ret_true (s : DetectorState) (env : LoadEnv) :
    (load_model s env).ret = true →
    (load_model s env).state.model_loaded = true ∧
      (load_model s env).state.load_error = none ∧
      env.smokeResult = .ok () ∧ (load_model s env).smokeRuns = 1 := by
  unfold load_model
  cases hp : env.pathExists <;>
    cases hr : env.parseResult <;>
      cases hs : env.smokeResult <;> simp

theorem load_model_smokeRuns (s : DetectorState) (env : LoadEnv) :
    ((load_model s env).smokeRuns = 1 ↔
      env.pathExists = true ∧ env.parseResult = .ok ()) ∧
    ((load_model s env).smokeRuns = 1 ∨ (load_model s env).smokeRuns = 0) := by
  unfold load_model
  cases hp : env.pathExists <;>
    cases hr : env.parseResult <;>
      cases hs : env.smokeResult <;> simp [hp, hr, hs]

theorem load_model_loaded_cases (s : DetectorState) (env : LoadEnv)
    (h : (load_model s env).state.model_loaded = true) :
    s.model_loaded = true ∨ env.smokeResult = .ok () := by
  unfold load_model at h
  cases hp : env.pathExists <;> rw [hp] at h
  · exact .inl (by simpa using h)
  · cases hr : env.parseResult <;> rw [hr] at h
    · exact .inl (by simpa using h)
    · cases hs : env.smokeResult <;> rw [hs] at h
      · exact .inl (by simpa using h)
      · exact .inr rfl

theorem loadTrace_loaded (envs : List LoadEnv) (s : DetectorState)
    (h : (envs.foldl (fun st e => (load_model st e).state) s).model_loaded = true) :
    s.model_loaded = true ∨ ∃ e ∈ envs, e.smokeResult = .ok () := by
  induction envs generalizing s with
  | nil => exact .inl (by simpa using h)
  | cons e es ih =>
    rw [List.foldl_cons] at h
    rcases ih _ h with h1 | ⟨f, hf, hs⟩
    · rcases load_model_loaded_cases s e h1 with h2 | h2
      · exact .inl h2
      · exact .inr ⟨e, by simp, h2⟩
    · exact .inr ⟨f, by simp [hf], hs⟩

/-! ### Claim C3 -/

/-- C3 counterexample: starting from a successfully-loaded state, a
`load_model` call on a missing artifact returns failure, yet the state
keeps `model_loaded = true` — the code never resets the flag on failure,
so the claim's "on any failure the state has loaded=false" is wrong. -/
theorem claim3_counterexample :
    (load_model loadedState missingFileEnv).ret = false ∧
    (load_model loadedState missingFileEnv).state.model_loaded = true := by
  decide

/-- C3 (amended): every `load_model` call records the attempt timestamp;
on success it sets `loaded=true` and clears the error; on failure it
records a non-empty human-readable error message and leaves the `loaded`
flag unchanged (it does not set it to `false`). -/
theorem claim3_load_state_contract (s : DetectorState) (env : LoadEnv) :
    (load_model s env).state.last_load_attempt = some env.now ∧
    ((load_model s env).ret = true →
      (load_model s env).state.model_loaded = true ∧
      (load_model s env).state.load_error = none) ∧
    ((load_model s env).ret = false →
      (load_model s env).state.model_loaded = s.model_loaded ∧
      ∃ m, (load_model s env).state.load_error = some m ∧ m ≠ "") := by
  refine ⟨load_model_last_attempt s env, ?_, load_model_ret_false s env⟩
  intro h
  exact ⟨(load_model_ret_true s env h).1, (load_model_ret_true s env h).2.1⟩

/-- C3 witness: the amended contract evaluated on the initial state and a
missing-artifact environment. -/
theorem claim3_witness :
    (load_model initialState missingFileEnv).state.last_load_attempt = some 0 ∧
    (load_model initialState missingFileEnv).state.model_loaded =
      initialState.model_loaded ∧
    ∃ m, (load_model initialState missingFileEnv).state.load_error = some m ∧
      m ≠ "" := by
  have h := claim3_load_state_contract initialState missingFileEnv
  exact ⟨h.1, (h.2.2 (by decide)).1, (h.2.2 (by decide)).2⟩

/-! ### Claim C6 -/

/-- C6 counterexample: for the box with raw x-corners 0.6 and 1.4, the
output corners both round to 1, so the width derived from the rounded
corners would be 0, but the code outputs `round(x2 - x1) = round(0.8) = 1`.
The claim's "width and height derived from the rounded integer corners"
is wrong. -/
theorem claim6_counterexample :
    (detectionOfBox [] oneRawBox).bounding_box.x1 = 1 ∧
    (detectionOfBox [] oneRawBox).bounding_box.x2 = 1 ∧
    (detectionOfBox [] oneRawBox).bounding_box.width = 1 ∧
    (detectionOfBox [] oneRawBox).bounding_box.width ≠
      (detectionOfBox [] oneRawBox).bounding_box.x2 -
        (detectionOfBox [] oneRawBox).bounding_box.x1 := by
  have hx1 : (detectionOfBox [] oneRawBox).bounding_box.x1 = 1 := by
    show roundHalfEven (3 / 5 : ℚ) = 1
    unfold roundHalfEven
    norm_num
  have hx2 : (detectionOfBox [] oneRawBox).bounding_box.x2 = 1 := by
    show roundHalfEven (7 / 5 : ℚ) = 1
    unfold roundHalfEven
    norm_num
  have hw : (detectionOfBox [] oneRawBox).bounding_box.width = 1 := by
    show roundHalfEven (7 / 5 - 3 / 5 : ℚ) = 1
    unfold roundHalfEven
    norm_num
  exact ⟨hx1, hx2, hw, by rw [hx1, hx2, hw]; decide⟩

/-- C6 (amended): every retained detection's output corners are the raw
model corners rounded to the nearest integer, and the output width and
height are the raw differences `x2 - x1` and `y2 - y1` rounded to the
nearest integer — computed from the unrounded coordinates, not from the
rounded corners. -/
theorem claim6_box_rounding (names : List (ℤ × String)) (b : RawBox) :
    (detectionOfBox names b).bounding_box.x1 = roundHalfEven b.x1 ∧
    (detectionOfBox names b).bounding_box.y1 = roundHalfEven b.y1 ∧
    (detectionOfBox names b).bounding_box.x2 = roundHalfEven b.x2 ∧
    (detectionOfBox names b).bounding_box.y2 = roundHalfEven b.y2 ∧
    (detectionOfBox names b).bounding_box.width = roundHalfEven (b.x2 - b.x1) ∧
    (detectionOfBox names b).bounding_box.height = roundHalfEven (b.y2 - b.y1) :=
  ⟨rfl, rfl, rfl, rfl, rfl, rfl⟩

/-! ### Claim C7 -/

/-- C7: a smoke-test inference runs exactly when the artifact exists and
parses (and then exactly once); a smoke-test failure makes the load fail
with a recorded error just like a parse failure; `load_model` returns
`true` only if the smoke test succeeded; and across any sequence of load
calls from the initial state, `model_loaded = true` implies some call's
smoke test succeeded. -/
theorem claim7_smoke_test_gate :
    (∀ (s : DetectorState) (env : LoadEnv),
      (env.pathExists = true → env.parseResult = .ok () →
        (load_model s env).smokeRuns = 1) ∧
      ((load_model s env).smokeRuns = 1 →
        env.pathExists = true ∧ env.parseResult = .ok ()) ∧
      (∀ e, env.smokeResult = .error e →
        (load_model s env).ret = false ∧
        ∃ m, (load_model s env).state.load_error = some m ∧ m ≠ "") ∧
      ((load_model s env).ret = true → env.smokeResult = .ok ())) ∧
    (∀ envs : List LoadEnv,
      (envs.foldl (fun st e => (load_model st e).state) initialState).model_loaded
          = true →
      ∃ e ∈ envs, e.smokeResult = .ok ()) := by
  constructor
  · intro s env
    refine ⟨?_, (load_model_smokeRuns s env).1.mp, ?_,
      fun h => (load_model_ret_true s env h).2.2.1⟩
    · intro hp hr
      exact (load_model_smokeRuns s env).1.mpr ⟨hp, hr⟩
    · intro e he
      cases hret : (load_model s env).ret with
      | true =>
        have hok := (load_model_ret_true s env hret).2.2.1
        rw [he] at hok
        cases hok
      | false => exact ⟨rfl, (load_model_ret_false s env hret).2⟩
  · intro envs h
    rcases loadTrace_loaded envs initialState h with h1 | h2
    · exact absurd h1 (by decide)
    · exact h2

/-- C7 witness: the gate evaluated on a smoke-test-failure environment and
on a one-call trace whose load succeeds. -/
theorem claim7_witness :
    (load_model initialState smokeFailEnv).smokeRuns = 1 ∧
    (load_model initialState smokeFailEnv).ret = false ∧
    (∃ m, (load_model initialState smokeFailEnv).state.load_error = some m ∧
      m ≠ "") ∧
    (∃ e ∈ [okLoadEnv], e.smokeResult = .ok ()) := by
  have h := claim7_smoke_test_gate
  have h1 := (h.1 initialState smokeFailEnv).1 rfl rfl
  have h2 := (h.1 initialState smokeFailEnv).2.2.1 "CUDA assertion failed" rfl
  have h3 := h.2 [okLoadEnv] (by decide)
  exact ⟨h1, h2.1, h2.2, h3⟩

/-! ### Claim C10 -/

/-- C10: every `detect_objects` call returns a pair with exactly one
non-null component: a null result with a non-empty error string on any
failure, or a non-null result with a null error on success. -/
theorem claim10_result_error_exclusive (s : DetectorState) (env : DetectEnv) :
    (∃ e, detect_objects s env = (none, some e) ∧ e ≠ "") ∨
    (∃ r, detect_objects s env = (some r, none)) := by
  cases hm : s.model_loaded with
  | false =>
    exact .inl ⟨"YOLO model not loaded", by simp [detect_objects, hm], by decide⟩
  | true =>
    cases hd : env.decode with
    | none =>
      exact .inl ⟨"Failed to decode image",
        by simp [detect_objects, hm, hd], by decide⟩
    | some img =>
      cases hmod : s.model with
      | none =>
        exact .inl ⟨"Detection error: NoneType object is not callable",
          by simp [detect_objects, hm, hd, hmod], by decide⟩
      | some names =>
        cases hi : env.inference with
        | error e =>
          exact .inl ⟨"Detection error: " ++ e,
            by simp [detect_objects, hm, hd, hmod, hi],
            append_ne_empty_left _ (by decide)⟩
        | ok results =>
          exact .inr ⟨_, detect_objects_ok s env names img results hm hmod hd hi⟩

/-! ### Claim C4 -/

/-- C4: a detection call on a loaded model with a decodable image and a
normal inference returns success with `total_objects` equal to the number
of raw model boxes and to the length of `objects_detected`; if the model
emits probabilities in `[0,1]` every output confidence is in `[0,100]`,
and if the raw corners are ordered every output box has `x2 >= x1` and
`y2 >= y1`. -/
theorem claim4_detection_invariants (s : DetectorState) (env : DetectEnv)
    (names : List (ℤ × String)) (img : Img) (results : List YoloResult)
    (hm : s.model_loaded = true) (hmod : s.model = some names)
    (hd : env.decode = some img) (hi : env.inference = .ok results)
    (hb : ∀ b ∈ allBoxes results,
      0 ≤ b.conf ∧ b.conf ≤ 1 ∧ b.x1 ≤ b.x2 ∧ b.y1 ≤ b.y2) :
    ∃ r, detect_objects s env = (some r, none) ∧
      r.total_objects = (allBoxes results).length ∧
      r.objects_detected.length = (allBoxes results).length ∧
      ∀ d ∈ r.objects_detected,
        0 ≤ d.confidence ∧ d.confidence ≤ 100 ∧
        d.bounding_box.x1 ≤ d.bounding_box.x2 ∧
        d.bounding_box.y1 ≤ d.bounding_box.y2 := by
  refine ⟨_, detect_objects_ok s env names img results hm hmod hd hi, rfl,
    by simp, ?_⟩
  intro d hmem
  rw [List.mem_map] at hmem
  obtain ⟨b, hbmem, rfl⟩ := hmem
  obtain ⟨h0, h1, hx, hy⟩ := hb b hbmem
  have hc := round1_mem_Icc h0 h1
  exact ⟨hc.1, hc.2, roundHalfEven_mono hx, roundHalfEven_mono hy⟩

/-- C4 witness: the invariants evaluated on a loaded state and a one-box
inference. -/
theorem claim4_witness :
    ∃ r, detect_objects loadedState oneBoxEnv = (some r, none) ∧
      r.total_objects = (allBoxes [{ boxes := some [oneRawBox] }]).length ∧
      r.objects_detected.length = (allBoxes [{ boxes := some [oneRawBox] }]).length ∧
      ∀ d ∈ r.objects_detected,
        0 ≤ d.confidence ∧ d.confidence ≤ 100 ∧
        d.bounding_box.x1 ≤ d.bounding_box.x2 ∧
        d.bounding_box.y1 ≤ d.bounding_box.y2 :=
  claim4_detection_invariants loadedState oneBoxEnv [(0, "tomato")]
    { width := 640, height := 480 } [{ boxes := some [oneRawBox] }]
    rfl rfl rfl rfl
    (by
      intro b hb
      simp [allBoxes, oneRawBox] at hb
      subst hb
      refine ⟨by norm_num, by norm_num, by norm_num, by norm_num⟩)

/-! ### Facade helper lemmas -/

theorem runDetection_small (s : DetectorState) (body : List ℕ) (denv : DetectEnv)
    (h : body.length < 1000) :
    runDetection s body denv =
      .imageTooSmall "Image too small - minimum 1KB required" := by
  unfold runDetection
  rw [if_pos h]

theorem yolo_detect_validates (s : DetectorState) (env : YoloRequestEnv)
    (h : s.model_loaded = true ∨ (load_model s env.loadEnv).ret = true) :
    ∃ t, (yolo_detect_objects s env).1 = runDetection t env.body env.detectEnv := by
  cases hm : s.model_loaded with
  | true => exact ⟨s, by simp [yolo_detect_objects, hm]⟩
  | false =>
    have hret : (load_model s env.loadEnv).ret = true := by
      rcases h with h | h
      · rw [hm] at h
        cases h
      · exact h
    exact ⟨(load_model s env.loadEnv).state,
      by simp [yolo_detect_objects, hm, hret]⟩

/-! ### Claim C5 -/

/-- C5: when the model is loaded, the body passes validation, the image
decodes, and the model emits zero detections, `detect_objects` returns a
success pair with `total_objects = 0` and an empty list (not an error),
and `/yolo-detect` answers with the 200 success response. -/
theorem claim5_zero_detections (s : DetectorState) (env : YoloRequestEnv)
    (names : List (ℤ × String)) (img : Img) (results : List YoloResult)
    (hm : s.model_loaded = true) (hmod : s.model = some names)
    (hd : env.detectEnv.decode = some img)
    (hi : env.detectEnv.inference = .ok results)
    (hz : allBoxes results = [])
    (hlen1 : 1000 ≤ env.body.length)
    (hlen2 : env.body.length ≤ 10 * 1024 * 1024)
    (hjpeg : jpegBracketed env.body = true) :
    detect_objects s env.detectEnv =
      (some { total_objects := 0, objects_detected := []
              image_width := img.width, image_height := img.height }, none) ∧
    (yolo_detect_objects s env).1 =
      .detectionSuccess env.body.length
        { total_objects := 0, objects_detected := []
          image_width := img.width, image_height := img.height } ∧
    yoloStatusCode (yolo_detect_objects s env).1 = 200 := by
  have hdet := detect_objects_ok s env.detectEnv names img results hm hmod hd hi
  rw [hz] at hdet
  simp only [List.length_nil, List.map_nil] at hdet
  have hresp : (yolo_detect_objects s env).1 =
      .detectionSuccess env.body.length
        { total_objects := 0, objects_detected := []
          image_width := img.width, image_height := img.height } := by
    have hrun : runDetection s env.body env.detectEnv =
        .detectionSuccess env.body.length
          { total_objects := 0, objects_detected := []
            image_width := img.width, image_height := img.height } := by
      unfold runDetection
      rw [if_neg (by omega), if_neg (by omega), if_neg (by simp [hjpeg]), hdet]
      simp [pyTruthyStr]
    simp [yolo_detect_objects, hm, hrun]
  exact ⟨hdet, hresp, by rw [hresp]; rfl⟩

/-- C5 witness: a loaded state, a well-formed 1000-byte body, and an
inference that emits no boxes. -/
theorem claim5_witness :
    detect_objects loadedState zeroBoxEnv =
      (some { total_objects := 0, objects_detected := []
              image_width := 640, image_height := 480 }, none) ∧
    (yolo_detect_objects loadedState
        { body := sampleBody, loadEnv := okLoadEnv, detectEnv := zeroBoxEnv }).1 =
      .detectionSuccess sampleBody.length
        { total_objects := 0, objects_detected := []
          image_width := 640, image_height := 480 } ∧
    yoloStatusCode (yolo_detect_objects loadedState
        { body := sampleBody, loadEnv := okLoadEnv, detectEnv := zeroBoxEnv }).1
      = 200 :=
  claim5_zero_detections loadedState
    { body := sampleBody, loadEnv := okLoadEnv, detectEnv := zeroBoxEnv }
    [(0, "tomato")] { width := 640, height := 480 }
    [{ boxes := none }, { boxes := some [] }]
    rfl rfl rfl rfl (by decide) (by decide) (by decide) (by decide)

/-! ### Claim C1 -/

/-- C1 counterexample: an empty (0-byte, thus < 1000-byte) body sent to
`/yolo-detect` while no model is loaded and the lazy reload fails gets the
503 `ModelNotLoaded` response, not the 400 `PayloadTooSmall` one — the
handler checks the model before reading or validating the body, so the
claim's "regardless of any other server state" is wrong for this
endpoint. -/
theorem claim1_counterexample :
    smallBodyFailEnv.body.length < 1000 ∧
    (yolo_detect_objects initialState smallBodyFailEnv).1 =
      .modelNotLoaded "YOLO model not loaded"
        "YOLO model file best.pt not found in /srv/app" (some 0) ∧
    yoloStatusCode (yolo_detect_objects initialState smallBodyFailEnv).1 = 503 := by
  decide

/-- C1 (amended): a body shorter than 1000 bytes always gets the 400
`PayloadTooSmall` response from `/upload-image`, and gets it from
`/yolo-detect` whenever a loaded model is available (already loaded, or
the lazy reload succeeds); with no model available `/yolo-detect` answers
503 before looking at the body. -/
theorem claim1_small_payload :
    (∀ (fs : Fs) (uenv : UploadEnv) (body : List ℕ), body.length < 1000 →
      (upload_image_direct fs uenv body).1 =
        .imageTooSmall "Image too small - minimum 1KB required" ∧
      uploadStatusCode (upload_image_direct fs uenv body).1 = 400) ∧
    (∀ (s : DetectorState) (env : YoloRequestEnv), env.body.length < 1000 →
      s.model_loaded = true ∨ (load_model s env.loadEnv).ret = true →
      (yolo_detect_objects s env).1 =
        .imageTooSmall "Image too small - minimum 1KB required" ∧
      yoloStatusCode (yolo_detect_objects s env).1 = 400) := by
  constructor
  · intro fs uenv body h
    have hresp : (upload_image_direct fs uenv body).1 =
        .imageTooSmall "Image too small - minimum 1KB required" := by
      unfold upload_image_direct
      rw [if_pos h]
    exact ⟨hresp, by rw [hresp]; rfl⟩
  · intro s env hlen hready
    obtain ⟨t, ht⟩ := yolo_detect_validates s env hready
    have hresp : (yolo_detect_objects s env).1 =
        .imageTooSmall "Image too small - minimum 1KB required" := by
      rw [ht, runDetection_small t env.body env.detectEnv hlen]
    exact ⟨hresp, by rw [hresp]; rfl⟩

/-- C1 witness: the amended statement evaluated on a 3-byte body, for the
upload endpoint and for the detect endpoint with a loaded model. -/
theorem claim1_witness :
    ((upload_image_direct fsEmpty { now := 3, writeOk := true } [1, 2, 3]).1 =
      .imageTooSmall "Image too small - minimum 1KB required" ∧
    uploadStatusCode
      (upload_image_direct fsEmpty { now := 3, writeOk := true } [1, 2, 3]).1 = 400) ∧
    ((yolo_detect_objects loadedState
        { body := [1, 2, 3], loadEnv := okLoadEnv, detectEnv := zeroBoxEnv }).1 =
      .imageTooSmall "Image too small - minimum 1KB required" ∧
    yoloStatusCode (yolo_detect_objects loadedState
        { body := [1, 2, 3], loadEnv := okLoadEnv, detectEnv := zeroBoxEnv }).1
      = 400) := by
  have h := claim1_small_payload
  exact ⟨h.1 fsEmpty { now := 3, writeOk := true } [1, 2, 3] (by decide),
    h.2 loadedState
      { body := [1, 2, 3], loadEnv := okLoadEnv, detectEnv := zeroBoxEnv }
      (by decide) (.inl rfl)⟩

/-! ### Claim C2 -/

/-- C2: a detection request arriving with no model loaded triggers exactly
one lazy reload attempt, and if that reload fails the handler answers 503
`ModelNotLoaded` with a non-empty error string, a non-empty details
string, and a non-null `last_attempt` equal to the reload attempt's
timestamp (the attempt time is recorded before any failure point). -/
theorem claim2_lazy_reload (s : DetectorState) (env : YoloRequestEnv)
    (hnl : s.model_loaded = false) :
    (yolo_detect_objects s env).2.2 = 1 ∧
    ((load_model s env.loadEnv).ret = false →
      ∃ d, (yolo_detect_objects s env).1 =
          .modelNotLoaded "YOLO model not loaded" d (some env.loadEnv.now) ∧
        d ≠ "" ∧
        yoloStatusCode (yolo_detect_objects s env).1 = 503) := by
  constructor
  · cases hret : (load_model s env.loadEnv).ret <;>
      simp [yolo_detect_objects, hnl, hret]
  · intro hret
    obtain ⟨-, m, hme, hne⟩ := load_model_ret_false s env.loadEnv hret
    have hresp : (yolo_detect_objects s env).1 =
        .modelNotLoaded "YOLO model not loaded" m (some env.loadEnv.now) := by
      simp [yolo_detect_objects, hnl, hret, hme, hne,
        load_model_last_attempt s env.loadEnv]
    exact ⟨m, hresp, hne, by rw [hresp]; rfl⟩

/-- C2 witness: the initial (never-loaded) state with a missing model
artifact. -/
theorem claim2_witness :
    (yolo_detect_objects initialState smallBodyFailEnv).2.2 = 1 ∧
    ∃ d, (yolo_detect_objects initialState smallBodyFailEnv).1 =
        .modelNotLoaded "YOLO model not loaded" d
          (some smallBodyFailEnv.loadEnv.now) ∧
      d ≠ "" ∧
      yoloStatusCode (yolo_detect_objects initialState smallBodyFailEnv).1 = 503 := by
  have h := claim2_lazy_reload initialState smallBodyFailEnv rfl
  exact ⟨h.1, h.2 (by decide)⟩

/-! ### Upload helper lemma -/

theorem upload_image_ok (fs : Fs) (env : UploadEnv) (body : List ℕ)
    (h1 : 1000 ≤ body.length) (h2 : body.length ≤ 5 * 1024 * 1024)
    (h3 : jpegBracketed body = true) (hw : env.writeOk = true) :
    upload_image_direct fs env body =
      (.uploadSuccess ("esp32_image_" ++ strftimeSeconds env.now ++ ".jpg")
        ("received_images/" ++ ("esp32_image_" ++ strftimeSeconds env.now ++ ".jpg"))
        body.length,
      fun q =>
        if q = "received_images/" ++
            ("esp32_image_" ++ strftimeSeconds env.now ++ ".jpg")
        then some body else fs q) := by
  unfold upload_image_direct
  rw [if_neg (by omega), if_neg (by omega), if_neg (by simp [h3]), if_pos hw]

/-! ### Claim C8 -/

/-- C8: any body accepted by `/upload-image` (passing validation, with the
disk write succeeding) is read back byte-for-byte from the returned
`saved_to` path of the post-request filesystem. -/
theorem claim8_upload_roundtrip (fs : Fs) (env : UploadEnv) (body : List ℕ)
    (h1 : 1000 ≤ body.length) (h2 : body.length ≤ 5 * 1024 * 1024)
    (h3 : jpegBracketed body = true) (hw : env.writeOk = true) :
    ∃ p, (upload_image_direct fs env body).1 =
        .uploadSuccess ("esp32_image_" ++ strftimeSeconds env.now ++ ".jpg") p
          body.length ∧
      (upload_image_direct fs env body).2 p = some body := by
  rw [upload_image_ok fs env body h1 h2 h3 hw]
  exact ⟨_, rfl, by simp⟩

/-- C8 witness: the round-trip on the 1000-byte sample body over the empty
filesystem. -/
theorem claim8_witness :
    ∃ p, (upload_image_direct fsEmpty { now := 9, writeOk := true } sampleBody).1 =
        .uploadSuccess ("esp32_image_" ++ strftimeSeconds 9 ++ ".jpg") p
          sampleBody.length ∧
      (upload_image_direct fsEmpty { now := 9, writeOk := true } sampleBody).2 p =
        some sampleBody :=
  claim8_upload_roundtrip fsEmpty { now := 9, writeOk := true } sampleBody
    (by decide) (by decide) (by decide) rfl

/-! ### Claim C9 -/

/-- C9 counterexample: two sequential valid uploads within the same
wall-clock second get the same filename `esp32_image_7.jpg`, and the
second write overwrites the first (the path afterwards holds the second
body) — there is no disambiguator, so the claim's "distinct,
collision-free names" is wrong. -/
theorem claim9_counterexample :
    (upload_image_direct fsEmpty uploadEnv7 sampleBody).1 =
      .uploadSuccess "esp32_image_7.jpg" "received_images/esp32_image_7.jpg"
        1000 ∧
    (upload_image_direct
        (upload_image_direct fsEmpty uploadEnv7 sampleBody).2
        uploadEnv7 sampleBody2).1 =
      .uploadSuccess "esp32_image_7.jpg" "received_images/esp32_image_7.jpg"
        1000 ∧
    (upload_image_direct
        (upload_image_direct fsEmpty uploadEnv7 sampleBody).2
        uploadEnv7 sampleBody2).2 "received_images/esp32_image_7.jpg" =
      some sampleBody2 ∧
    sampleBody ≠ sampleBody2 := by
  decide

/-- C9 (amended): two sequential valid uploads whose timestamps collide at
second resolution produce the *same* filename and path, and the second
upload overwrites the first: afterwards the shared path holds the second
body. -/
theorem claim9_same_second_overwrite (fs : Fs) (env : UploadEnv)
    (b1 b2 : List ℕ)
    (h11 : 1000 ≤ b1.length) (h12 : b1.length ≤ 5 * 1024 * 1024)
    (h13 : jpegBracketed b1 = true)
    (h21 : 1000 ≤ b2.length) (h22 : b2.length ≤ 5 * 1024 * 1024)
    (h23 : jpegBracketed b2 = true)
    (hw : env.writeOk = true) :
    ∃ fn p,
      (upload_image_direct fs env b1).1 = .uploadSuccess fn p b1.length ∧
      (upload_image_direct (upload_image_direct fs env b1).2 env b2).1 =
        .uploadSuccess fn p b2.length ∧
      (upload_image_direct (upload_image_direct fs env b1).2 env b2).2 p =
        some b2 := by
  rw [upload_image_ok fs env b1 h11 h12 h13 hw]
  rw [upload_image_ok _ env b2 h21 h22 h23 hw]
  exact ⟨_, _, rfl, rfl, by simp⟩

/-- C9 witness: the two sample bodies uploaded in the same second over the
empty filesystem. -/
theorem claim9_witness :
    ∃ fn p,
      (upload_image_direct fsEmpty uploadEnv7 sampleBody).1 =
        .uploadSuccess fn p sampleBody.length ∧
      (upload_image_direct (upload_image_direct fsEmpty uploadEnv7 sampleBody).2
          uploadEnv7 sampleBody2).1 =
        .uploadSuccess fn p sampleBody2.length ∧
      (upload_image_direct (upload_image_direct fsEmpty uploadEnv7 sampleBody).2
          uploadEnv7 sampleBody2).2 p = some sampleBody2 :=
  claim9_same_second_overwrite fsEmpty uploadEnv7 sampleBody sampleBody2
    (by decide) (by decide) (by decide) (by decide) (by decide) (by decide) rfl

end YoloVeggie
